import Mathlib

/-!
A shallow embedding of the query-compilation and ingestion layer of the
memo-search repository (`src/opensearch_client.py`, `src/post_memo_to_opensearch.py`),
with theorems settling the specification's claims about it.

The Python code passes JSON-like dictionaries between layers; we model a
Python/JSON value with the inductive `PyVal` (`PyVal.none` is Python's `None`),
and a Python dict as an association list `List (String × PyVal)` looked up by
first match (Python dicts have unique keys, so first-match lookup agrees).
-/

namespace MemoSearch

/-- A Python/JSON value as passed between the layers of the client.
`none` is Python's `None`; numbers that matter to the claims are integers,
except the boost weight which is an exact rational (`rat`), since the only
operation the code performs on it is equality comparison with `1.0`. -/
inductive PyVal where
  | none
  | bool (b : Bool)
  | int (n : Int)
  | rat (q : ℚ)
  | str (s : String)
  | list (xs : List PyVal)
  | dict (fields : List (String × PyVal))

/-- Python `d.get(k)` on a dict modelled as an association list:
the first value stored under `k`, or Python `None` when the key is absent. -/
def pyGet (d : List (String × PyVal)) (k : String) : PyVal :=
  match d.lookup k with
  | Option.some v => v
  | Option.none => PyVal.none

/-- Python `d.get(k, default)`. -/
def pyGetD (d : List (String × PyVal)) (k : String) (default : PyVal) : PyVal :=
  match d.lookup k with
  | Option.some v => v
  | Option.none => default

/-- Python `k in d` for a dict. -/
def pyHasKey (d : List (String × PyVal)) (k : String) : Bool :=
  (d.lookup k).isSome

/-- `DEFAULT_FACET_FIELDS = ["industry", "sector", "region", "currency"]`
(src/opensearch_client.py, line 81). -/
def DEFAULT_FACET_FIELDS : List String := ["industry", "sector", "region", "currency"]

/-- One `{"terms": {field: vals}}` filter clause as emitted by the compiler. -/
structure TermsClause where
  field : String
  values : List String
deriving DecidableEq, Repr

/-- The `criteria` argument of `_criteria_filters`: a `Dict[str, List[str]]`,
modelled as an association list.  A value may also be Python-falsy
(`None`/empty); `criteria.get(field) or []` collapses both to `[]`, so we keep
values as plain `List String` with `Option` marking key absence. -/
abbrev CriteriaDict := List (String × List String)

/-- `MemoOpenSearchClient._criteria_filters` (src/opensearch_client.py,
lines 176-183):

    filters = []
    for field in ["industry", "sector", "region", "currency"]:
        vals = criteria.get(field) or []
        if vals:
            filters.append({"terms": {field: vals}})
    return filters
-/
def criteria_filters (criteria : CriteriaDict) : List TermsClause :=
  DEFAULT_FACET_FIELDS.filterMap (fun field =>
    let vals := (criteria.lookup field).getD []
    if vals.isEmpty then Option.none else Option.some ⟨field, vals⟩)

/-- The `tq` argument of `_multi_match_clause`: a dict with the keys of the
`TextQuery` model.  `tq["query"]` and `tq["fields"]` are indexed directly
(required); `type`, `operator` and `boost` are read with `.get`, so they may
be absent. -/
structure TextQueryDict where
  query : String
  fields : List String
  type : Option String
  operator : Option String
  boost : Option ℚ
deriving DecidableEq, Repr

/-- The `{"multi_match": {...}}` clause emitted by `_multi_match_clause`.
`boost = Option.none` means the `boost` key is absent from the clause dict. -/
structure MultiMatchClause where
  query : String
  fields : List String
  type : String
  operator : String
  boost : Option ℚ
deriving DecidableEq, Repr

/-- `MemoOpenSearchClient._multi_match_clause` (src/opensearch_client.py,
lines 185-199):

    clause = {"multi_match": {"query": tq["query"], "fields": tq["fields"],
                              "type": tq.get("type", "best_fields"),
                              "operator": tq.get("operator", "or")}}
    boost = tq.get("boost")
    if boost is not None and boost != 1.0:
        clause["multi_match"]["boost"] = boost
    return clause
-/
def multi_match_clause (tq : TextQueryDict) : MultiMatchClause :=
  { query := tq.query
    fields := tq.fields
    type := tq.type.getD "best_fields"
    operator := tq.operator.getD "or"
    boost :=
      match tq.boost with
      | Option.some b => if b ≠ 1 then Option.some b else Option.none
      | Option.none => Option.none }

/-- The `request` argument of `build_bool_query`: `SearchRequest.dict(by_alias=True)`.
Only the keys the function reads are modelled; each is read with `.get`, and
`Option.none` covers both an absent key and a stored `None` (the code's
`request.get(k) or default` / `request.get(k, default)` treats them alike,
except `minimum_should_match` where a stored `None`... is not produced by the
pydantic model, so `Option` marks absence). -/
structure RequestDict where
  criteria : Option CriteriaDict
  must_text : Option (List TextQueryDict)
  should_text : Option (List TextQueryDict)
  minimum_should_match : Option Int
deriving Repr

/-- The `{"bool": {...}}` query node returned by `build_bool_query`. -/
structure BoolQuery where
  filter : List TermsClause
  must : List MultiMatchClause
  should : List MultiMatchClause
  minimum_should_match : Int
deriving DecidableEq, Repr

/-- `MemoOpenSearchClient.build_bool_query` (src/opensearch_client.py,
lines 201-228):

    criteria = (request.get("criteria") or \x7b\x7d)
    filters = self._criteria_filters(criteria)
    must = [self._multi_match_clause(tq) for tq in request.get("must_text", []) or []]
    should = [self._multi_match_clause(tq) for tq in request.get("should_text", []) or []]
    minimum_should_match = request.get("minimum_should_match", 1)
    if not should:
        minimum_should_match = 0
    return {"bool": {"filter": filters, "must": must, "should": should,
                     "minimum_should_match": minimum_should_match}}
-/
def build_bool_query (request : RequestDict) : BoolQuery :=
  let criteria := request.criteria.getD []
  let filters := criteria_filters criteria
  let must := (request.must_text.getD []).map multi_match_clause
  let should := (request.should_text.getD []).map multi_match_clause
  let msm := request.minimum_should_match.getD 1
  { filter := filters
    must := must
    should := should
    minimum_should_match := if should.isEmpty then 0 else msm }

/-! ### Search executor: total-hits normalization (`search`, lines 279-290)

`search` sends the body to the engine and then reads the response:

    hits = resp.get("hits", \x7b\x7d).get("hits", [])
    total = resp.get("hits", \x7b\x7d).get("total", \x7b\x7d)
    total_value = total.get("value") if isinstance(total, dict) else total
    return {"total": total_value, "hits": hits, "aggregations": resp.get("aggregations", \x7b\x7d),
            "raw": resp, "query": body}

The engine response `resp` is a parsed JSON dict.  `.get(...)` chained on
`resp.get("hits", \x7b\x7d)` is only defined when that value is a dict
(otherwise Python raises `AttributeError`), so the embedding returns
`Option`, with `Option.none` for that crash. -/

/-- The result envelope built by `search`, restricted to the fields the
response parsing decides (`aggregations`, `raw` and `query` are verbatim
copies).  `total` is a `PyVal` since the code may store Python `None` there. -/
structure Envelope where
  total : PyVal
  hits : PyVal

/-- The response-normalization tail of `MemoOpenSearchClient.search`
(src/opensearch_client.py, lines 279-290), applied to the parsed engine
response `resp`.  Returns `Option.none` exactly when `resp["hits"]` exists
but is not a dict, in which case the chained `.get` raises. -/
def search_envelope (resp : List (String × PyVal)) : Option Envelope :=
  match pyGetD resp "hits" (PyVal.dict []) with
  | PyVal.dict hitsObj =>
      let hits := pyGetD hitsObj "hits" (PyVal.list [])
      let total := pyGetD hitsObj "total" (PyVal.dict [])
      let total_value :=
        match total with
        | PyVal.dict tfields => pyGet tfields "value"
        | t => t
      Option.some { total := total_value, hits := hits }
  | _ => Option.none

/-! ### Single-document lookup (`get_memo`, lines 160-164)

    try:
        return self.client.get(index=self.index, id=doc_id, _source_includes=source_includes)
    except NotFoundError:
        return None

`self.client.get` is the engine call: it either returns the record, raises
`NotFoundError`, or raises some other transport/engine error.  We model the
engine as a function from the document id to one of those three outcomes. -/

/-- Outcome of the engine's single-document `get` call for a given id. -/
inductive EngineGetResult where
  | found (record : PyVal)
  | notFound
  | transportError (e : String)

/-- `MemoOpenSearchClient.get_memo` (src/opensearch_client.py, lines 160-164):
catches `NotFoundError` and returns `None`; any other exception propagates
(`Except.error`). -/
def get_memo (engine : String → EngineGetResult) (doc_id : String) :
    Except String (Option PyVal) :=
  match engine doc_id with
  | EngineGetResult.found record => Except.ok (Option.some record)
  | EngineGetResult.notFound => Except.ok Option.none
  | EngineGetResult.transportError e => Except.error e

/-! ### Lenient bulk ingestion (`bulk_upsert`, lines 144-158)

    def gen_actions():
        for doc_id, doc in docs:
            yield {"_op_type": "index", "_index": self.index, "_id": doc_id, "_source": doc}
    success, errors = helpers.bulk(self.client, gen_actions(), chunk_size=chunk_size,
                                   raise_on_error=False)
    return {"success": success, "errors": errors}

`opensearchpy.helpers.bulk` is an external library, not part of this
repository; it is modelled below from the spec. -/

/-- One bulk action as produced by `gen_actions` inside `bulk_upsert`. -/
structure BulkAction where
  op_type : String
  index : String
  id : String
  source : PyVal

/-- A per-action engine outcome for a bulk submission: `Option.none` means the
document was written; `Option.some e` is the per-document error descriptor.
Documents are upserted independently by id, so the engine's verdict is a
function of the action alone. -/
abbrev BulkEngine := BulkAction → Option PyVal

/-- Splits a list into consecutive chunks.  For `n ≥ 1` each chunk except
possibly the last has exactly `n` elements, matching how the bulk helper
groups `chunk_size` actions per request.  (For `n = 0` this yields singleton
chunks; the pipeline only ever uses positive chunk sizes, default 500.) -/
def chunkList (n : Nat) : List α → List (List α)
  | [] => []
  | x :: xs => (x :: xs.take (n - 1)) :: chunkList n (xs.drop (n - 1))
termination_by xs => xs.length
decreasing_by
  simp only [List.length_cons, List.length_drop]
  omega

/-- Modelled from the spec: `opensearchpy.helpers.bulk(client, actions,
chunk_size=chunk_size, raise_on_error=False)` — an external library function
not under src/.  Per the spec (section 4.4): actions are submitted in
fixed-size chunks; a per-document failure does not raise and does not stop
submission of subsequent chunks; the call returns the count of successes and
the full list of per-document errors, aggregated across all chunks in order. -/
def helpers_bulk (engine : BulkEngine) (actions : List BulkAction)
    (chunk_size : Nat) : Nat × List PyVal :=
  (chunkList chunk_size actions).foldl
    (fun acc chunk =>
      let results := chunk.map engine
      (acc.1 + (results.filter Option.isNone).length,
       acc.2 ++ results.filterMap id))
    (0, [])

/-- The `{"success": ..., "errors": ...}` outcome dict of `bulk_upsert`. -/
structure BulkOutcome where
  success : Nat
  errors : List PyVal

/-- `MemoOpenSearchClient.bulk_upsert` (src/opensearch_client.py,
lines 144-158), with the engine's per-action verdict and the index name as
parameters. -/
def bulk_upsert (engine : BulkEngine) (index : String)
    (docs : List (String × PyVal)) (chunk_size : Nat := 500) : BulkOutcome :=
  let gen_actions := docs.map (fun d =>
    { op_type := "index", index := index, id := d.1, source := d.2 : BulkAction })
  let result := helpers_bulk engine gen_actions chunk_size
  { success := result.1, errors := result.2 }

/-! ### Strict raw-NDJSON bulk path (`bulk_index`, src/post_memo_to_opensearch.py,
lines 60-78)

    resp = requests.post(url, ...); resp.raise_for_status()
    result = resp.json()
    if result.get("errors"):
        items = result.get("items", [])
        errors = []
        for it in items:
            action = next(iter(it.values()))
            if "error" in action:
                errors.append(action["error"])
            if len(errors) >= 3:
                break
        raise RuntimeError(f"Bulk indexing had errors. Sample: ...")

We model the function from the parsed 2xx bulk response onward (the HTTP
POST and `raise_for_status` are transport glue).  Each element of `items` is
a dict with a single key (the action name) whose value carries an optional
`error` payload; `next(iter(it.values()))` takes the first value and raises
`StopIteration` on an empty dict. -/

/-- One entry of the bulk response's `items` array: a dict mapping the action
name to the action result, itself a dict possibly holding an `"error"` key. -/
abbrev BulkItem := List (String × List (String × PyVal))

/-- The parsed body of the engine's `_bulk` response, restricted to the keys
`bulk_index` reads: the top-level `errors` flag and the `items` array. -/
structure BulkResponse where
  errors : Bool
  items : List BulkItem

/-- How a `bulk_index` call ends. -/
inductive BulkIndexResult where
  | ok
  | raised (sample : List PyVal)
  | stopIteration

/-- The error-sampling loop of `bulk_index`: walks `items` in order, appends
each item's `error` payload, and breaks as soon as 3 errors are collected.
Returns `Except.error ()` when `next(iter(it.values()))` hits an empty item
dict (Python `StopIteration`). -/
def sample_bulk_errors : List BulkItem → List PyVal → Except Unit (List PyVal)
  | [], errors => Except.ok errors
  | it :: rest, errors =>
    match it.head? with
    | Option.none => Except.error ()
    | Option.some action =>
      let errors :=
        if pyHasKey action.2 "error" then errors ++ [pyGet action.2 "error"]
        else errors
      if 3 ≤ errors.length then Except.ok errors
      else sample_bulk_errors rest errors

/-- `bulk_index` (src/post_memo_to_opensearch.py, lines 60-78), from the
parsed 2xx bulk response onward: raises `RuntimeError` with an error sample
whenever the response's `errors` flag is set, and returns normally
otherwise. -/
def bulk_index (resp : BulkResponse) : BulkIndexResult :=
  if resp.errors then
    match sample_bulk_errors resp.items [] with
    | Except.ok errors => BulkIndexResult.raised errors
    | Except.error () => BulkIndexResult.stopIteration
  else BulkIndexResult.ok

/-- The error payload `bulk_index` would collect from one item of the bulk
response: the `error` value of the item's first action, when present. -/
def item_error (it : BulkItem) : Option PyVal :=
  match it.head? with
  | Option.some action =>
      if pyHasKey action.2 "error" then Option.some (pyGet action.2 "error")
      else Option.none
  | Option.none => Option.none

/-! ## Concrete inputs used by the witness theorems -/

/-- A request with an empty should-list and caller threshold `-5`. -/
def reqEmptyShould : RequestDict :=
  { criteria := Option.none, must_text := Option.none,
    should_text := Option.some [], minimum_should_match := Option.some (-5) }

/-- A text-query dict used by concrete witnesses. -/
def tqFuel : TextQueryDict :=
  { query := "fuel price", fields := ["riskFactors"],
    type := Option.none, operator := Option.none, boost := Option.none }

/-- A request with a one-element should-list and caller threshold `7`. -/
def reqOneShould : RequestDict :=
  { criteria := Option.none, must_text := Option.none,
    should_text := Option.some [tqFuel], minimum_should_match := Option.some 7 }

/-- A criteria dict with one non-empty facet field and one empty one. -/
def critHealth : CriteriaDict := [("industry", ["Healthcare"]), ("sector", [])]

/-- An engine response whose `hits.total` is the bare integer 7. -/
def respBareTotal : List (String × PyVal) :=
  [("hits", PyVal.dict [("total", PyVal.int 7), ("hits", PyVal.list [])])]

/-- An engine response whose `hits.total` is `{value: 7, relation: "eq"}`. -/
def respStructuredTotal : List (String × PyVal) :=
  [("hits", PyVal.dict
    [("total", PyVal.dict [("value", PyVal.int 7), ("relation", PyVal.str "eq")]),
     ("hits", PyVal.list [])])]

/-- An engine response whose `hits` object carries no `total` field. -/
def respNoTotal : List (String × PyVal) :=
  [("hits", PyVal.dict [("hits", PyVal.list [])])]

/-- An engine that rejects exactly the document with id `"bad"`. -/
def engineBad : BulkEngine := fun a =>
  if a.id == "bad" then Option.some (PyVal.str "boom") else Option.none

/-- A three-document batch whose middle document fails. -/
def docsBad : List (String × PyVal) :=
  [("a", PyVal.int 1), ("bad", PyVal.int 2), ("c", PyVal.int 3)]

/-- A bulk-response item whose action failed with the given error payload. -/
def failedItem (e : String) : BulkItem :=
  [("index", [("error", PyVal.str e), ("status", PyVal.int 400)])]

/-- A bulk-response item whose action succeeded. -/
def okItem : BulkItem := [("index", [("status", PyVal.int 201)])]

/-- A bulk response with the `errors` flag set and four failing items. -/
def respBulkErrors : BulkResponse :=
  { errors := true,
    items := [failedItem "e1", okItem, failedItem "e2", failedItem "e3",
              failedItem "e4"] }

/-- A bulk response with the `errors` flag clear. -/
def respBulkOk : BulkResponse := { errors := false, items := [okItem] }

/-! ## Helper lemmas -/

/-- Looking up a key kept by a key-set filter is unchanged by the filter. -/
theorem lookup_filter_mem_keys {α : Type} (c : List (String × α)) (ks : List String)
    (f : String) (hf : f ∈ ks) :
    (c.filter (fun p => decide (p.1 ∈ ks))).lookup f = c.lookup f := by
  induction c with
  | nil => rfl
  | cons hd tl ih =>
    rw [List.filter_cons]
    by_cases hks : hd.1 ∈ ks
    · rw [if_pos (by simpa using hks)]
      cases hbeq : f == hd.1 with
      | true => simp [List.lookup, hbeq]
      | false => simp [List.lookup, hbeq, ih]
    · have hne : (f == hd.1) = false := by
        simp only [beq_eq_false_iff_ne, ne_eq]
        intro h
        exact hks (h ▸ hf)
      rw [if_neg (by simpa using hks), ih]
      cases hd with
      | mk k v => simp only [List.lookup, hne]

/-- Flattening the chunks gives back the original action list. -/
theorem chunkList_flatten (n : Nat) (xs : List α) : (chunkList n xs).flatten = xs := by
  match xs with
  | [] => simp [chunkList]
  | x :: xs =>
    have ih := chunkList_flatten n (xs.drop (n - 1))
    rw [chunkList]
    simp [ih, List.take_append_drop]
termination_by xs.length
decreasing_by
  simp only [List.length_cons, List.length_drop]
  omega

/-- The per-chunk aggregation fold of `helpers_bulk`, evaluated in closed
form over the flattened chunk list. -/
theorem helpers_bulk_foldl (engine : BulkEngine) (chunks : List (List BulkAction))
    (s : Nat) (e : List PyVal) :
    chunks.foldl
      (fun acc chunk =>
        let results := chunk.map engine
        (acc.1 + (results.filter Option.isNone).length,
         acc.2 ++ results.filterMap id))
      (s, e) =
    (s + ((chunks.flatten.map engine).filter Option.isNone).length,
     e ++ (chunks.flatten.map engine).filterMap id) := by
  induction chunks generalizing s e with
  | nil => simp
  | cons c cs ih =>
    simp only [List.foldl_cons, ih, List.flatten_cons, List.map_append,
      List.filter_append, List.filterMap_append, List.length_append,
      List.append_assoc, Nat.add_assoc]

/-- `helpers_bulk` in closed form: the success count and error list over the
whole action list, independent of the chunk size. -/
theorem helpers_bulk_eq (engine : BulkEngine) (actions : List BulkAction) (n : Nat) :
    helpers_bulk engine actions n =
      (((actions.map engine).filter Option.isNone).length,
       (actions.map engine).filterMap id) := by
  unfold helpers_bulk
  rw [helpers_bulk_foldl]
  simp [chunkList_flatten]

/-! ## Claim theorems -/

/-- C1: for every search request whose should-list is empty, the
`minimum_should_match` value in the boolean query returned by
`build_bool_query` is 0, regardless of the caller-supplied
`minimum_should_match` (including negative or large positive values); for
every request whose should-list is non-empty, the caller-supplied
`minimum_should_match` appears in the output unchanged. -/
theorem build_bool_query_msm_correction (request : RequestDict) :
    (request.should_text.getD [] = [] →
      (build_bool_query request).minimum_should_match = 0) ∧
    (request.should_text.getD [] ≠ [] → ∀ m : Int,
      request.minimum_should_match = Option.some m →
      (build_bool_query request).minimum_should_match = m) := by
  constructor
  · intro h
    simp [build_bool_query, h]
  · intro h m hm
    simp [build_bool_query, hm, List.isEmpty_iff, h]

/-- Witness for C1 at concrete requests: an empty should-list forces the
threshold to 0 even for caller value `-5`; a one-element should-list passes
the caller value `7` through. -/
theorem build_bool_query_msm_correction_witness :
    (build_bool_query reqEmptyShould).minimum_should_match = 0 ∧
    (build_bool_query reqOneShould).minimum_should_match = 7 :=
  ⟨(build_bool_query_msm_correction reqEmptyShould).1 rfl,
   (build_bool_query_msm_correction reqOneShould).2 (by simp [reqOneShould]) 7 rfl⟩

/-- Every clause emitted by `_criteria_filters` carries exactly the values
looked up under its field, and those values are non-empty. -/
theorem mem_criteria_filters (criteria : CriteriaDict) (c : TermsClause)
    (hc : c ∈ criteria_filters criteria) :
    c.values = (criteria.lookup c.field).getD [] ∧ c.values ≠ [] := by
  simp only [criteria_filters, List.mem_filterMap] at hc
  obtain ⟨a, _, hfa⟩ := hc
  by_cases hemp : ((criteria.lookup a).getD []).isEmpty
  · simp [hemp] at hfa
  · simp only [hemp, if_neg, Bool.false_eq_true, not_false_eq_true, if_false,
      Option.some.injEq] at hfa
    subst hfa
    simp only [List.isEmpty_iff] at hemp
    exact ⟨rfl, hemp⟩

/-- C2: for every criteria dict and each of the four facet fields
(`industry`, `sector`, `region`, `currency`): an empty value set yields no
filter clause for that field, and a non-empty value set yields exactly one
`terms` clause for that field carrying exactly the supplied values. -/
theorem criteria_filters_per_field (criteria : CriteriaDict) (field : String)
    (hf : field ∈ DEFAULT_FACET_FIELDS) :
    ((criteria.lookup field).getD [] = [] →
      ∀ c ∈ criteria_filters criteria, c.field ≠ field) ∧
    ((criteria.lookup field).getD [] ≠ [] →
      (criteria_filters criteria).filter (fun c => c.field == field) =
        [⟨field, (criteria.lookup field).getD []⟩]) := by
  constructor
  · intro h c hc hcf
    obtain ⟨hvals, hne⟩ := mem_criteria_filters criteria c hc
    rw [hcf] at hvals
    exact hne (hvals.trans h)
  · intro h
    fin_cases hf <;>
    · simp only [criteria_filters, DEFAULT_FACET_FIELDS, List.filterMap]
      by_cases h1 : ((criteria.lookup "industry").getD []).isEmpty <;>
      by_cases h2 : ((criteria.lookup "sector").getD []).isEmpty <;>
      by_cases h3 : ((criteria.lookup "region").getD []).isEmpty <;>
      by_cases h4 : ((criteria.lookup "currency").getD []).isEmpty <;>
      simp_all [List.isEmpty_iff]

/-- Witness for C2 at a concrete criteria dict: the non-empty `industry` set
yields exactly one `terms` clause with exactly its values, and the empty
`sector` set yields no clause. -/
theorem criteria_filters_per_field_witness :
    ((criteria_filters critHealth).filter (fun c => c.field == "industry") =
      [⟨"industry", ["Healthcare"]⟩]) ∧
    (∀ c ∈ criteria_filters critHealth, c.field ≠ "sector") :=
  ⟨(criteria_filters_per_field critHealth "industry" (by decide)).2 (by decide),
   (criteria_filters_per_field critHealth "sector" (by decide)).1 (by decide)⟩

/-- C3: compiling a text query with `boost = 1.0` and compiling it with the
`boost` key absent yield equal clauses, and in both cases the resulting
`multi_match` clause carries no `boost` key. -/
theorem multi_match_clause_boost_equivalence (tq : TextQueryDict) :
    multi_match_clause { tq with boost := Option.some 1 } =
      multi_match_clause { tq with boost := Option.none } ∧
    (multi_match_clause { tq with boost := Option.some 1 }).boost = Option.none ∧
    (multi_match_clause { tq with boost := Option.none }).boost = Option.none := by
  refine ⟨?_, by simp [multi_match_clause], by simp [multi_match_clause]⟩
  simp [multi_match_clause]

/-- C8: the compiler silently ignores keys of the criteria dict outside the
four enumerated facet fields: the compiled query is identical to the one
compiled after removing the unknown keys (and, the embedding being total, no
error is raised). -/
theorem build_bool_query_ignores_unknown_criteria_keys (request : RequestDict) :
    build_bool_query request = build_bool_query
      { request with
        criteria :=
          Option.some ((request.criteria.getD []).filter
            (fun p => decide (p.1 ∈ DEFAULT_FACET_FIELDS))) } := by
  have hcf : criteria_filters (request.criteria.getD []) =
      criteria_filters ((request.criteria.getD []).filter
        (fun p => decide (p.1 ∈ DEFAULT_FACET_FIELDS))) := by
    unfold criteria_filters
    refine List.filterMap_congr ?_
    intro field hfield
    rw [lookup_filter_mem_keys _ _ _ hfield]
  simp only [build_bool_query, Option.getD_some]
  rw [hcf]

/-- C7: whether the engine reports `hits.total` as a bare integer `n` or as
a structure `{value: n, relation: r}`, the `total` field of the envelope
returned by `search` is the single integer `n`. -/
theorem search_total_normalization (resp : List (String × PyVal))
    (hitsObj : List (String × PyVal)) (n : Int) (r : String)
    (hresp : resp.lookup "hits" = Option.some (PyVal.dict hitsObj)) :
    (hitsObj.lookup "total" = Option.some (PyVal.int n) →
      (search_envelope resp).map Envelope.total = Option.some (PyVal.int n)) ∧
    (hitsObj.lookup "total" =
        Option.some (PyVal.dict [("value", PyVal.int n), ("relation", PyVal.str r)]) →
      (search_envelope resp).map Envelope.total = Option.some (PyVal.int n)) := by
  constructor <;> intro h <;>
    simp [search_envelope, pyGetD, pyGet, hresp, h, List.lookup]

/-- Witness for C7: both concrete responses normalize to the integer 7. -/
theorem search_total_normalization_witness :
    (search_envelope respBareTotal).map Envelope.total =
      Option.some (PyVal.int 7) ∧
    (search_envelope respStructuredTotal).map Envelope.total =
      Option.some (PyVal.int 7) :=
  ⟨(search_total_normalization respBareTotal _ 7 "eq" rfl).1 rfl,
   (search_total_normalization respStructuredTotal _ 7 "eq" rfl).2 rfl⟩

/-- C10: when the engine response's `hits` object has no `total` field at
all, `search` still returns a well-formed envelope, and its `total` field is
Python `None` (the code falls back to `\x7b\x7d.get("value")`). -/
theorem search_total_missing_is_none (resp : List (String × PyVal))
    (hitsObj : List (String × PyVal))
    (hresp : resp.lookup "hits" = Option.some (PyVal.dict hitsObj))
    (htotal : hitsObj.lookup "total" = Option.none) :
    (search_envelope resp).map Envelope.total = Option.some PyVal.none := by
  simp [search_envelope, pyGetD, pyGet, hresp, htotal, List.lookup]

/-- Witness for C10: the concrete total-less response yields `total = None`. -/
theorem search_total_missing_is_none_witness :
    (search_envelope respNoTotal).map Envelope.total = Option.some PyVal.none :=
  search_total_missing_is_none respNoTotal _ rfl rfl

/-- C9: when the engine reports no record for an id, `get_memo` returns the
explicit absent value `None` rather than propagating the not-found error;
when the engine returns a record, `get_memo` returns that record. -/
theorem get_memo_absent_or_record (engine : String → EngineGetResult)
    (doc_id : String) :
    (engine doc_id = EngineGetResult.notFound →
      get_memo engine doc_id = Except.ok Option.none) ∧
    (∀ record, engine doc_id = EngineGetResult.found record →
      get_memo engine doc_id = Except.ok (Option.some record)) := by
  constructor
  · intro h
    simp [get_memo, h]
  · intro record h
    simp [get_memo, h]

/-- Witness for C9 at concrete engines: one that knows no documents, and one
that returns a fixed record for every id. -/
theorem get_memo_absent_or_record_witness :
    get_memo (fun _ => EngineGetResult.notFound) "m1" = Except.ok Option.none ∧
    get_memo (fun _ => EngineGetResult.found (PyVal.str "memo")) "m1" =
      Except.ok (Option.some (PyVal.str "memo")) :=
  ⟨(get_memo_absent_or_record (fun _ => EngineGetResult.notFound) "m1").1 rfl,
   (get_memo_absent_or_record (fun _ => EngineGetResult.found (PyVal.str "memo"))
      "m1").2 (PyVal.str "memo") rfl⟩

/-- C4: `bulk_upsert` never raises on a per-document write failure (the
embedding is a total function: every batch yields an outcome); its `success`
field counts the documents the engine wrote, and its `errors` field is the
full in-order list of per-document error descriptors for the failed
documents. -/
theorem bulk_upsert_outcome (engine : BulkEngine) (index : String)
    (docs : List (String × PyVal)) (chunk_size : Nat) (hpos : 0 < chunk_size) :
    (bulk_upsert engine index docs chunk_size).success =
      ((docs.map (fun d => engine
        { op_type := "index", index := index, id := d.1, source := d.2 })).filter
          Option.isNone).length ∧
    (bulk_upsert engine index docs chunk_size).errors =
      (docs.map (fun d => engine
        { op_type := "index", index := index, id := d.1, source := d.2 })).filterMap
        id := by
  simp [bulk_upsert, helpers_bulk_eq, List.map_map, Function.comp_def]

/-- Witness for C4: on the concrete batch with one failing document and
chunk size 2, the outcome reports 2 successes and the single error. -/
theorem bulk_upsert_outcome_witness :
    (bulk_upsert engineBad "memo" docsBad 2).success = 2 ∧
    (bulk_upsert engineBad "memo" docsBad 2).errors = [PyVal.str "boom"] := by
  have h := bulk_upsert_outcome engineBad "memo" docsBad 2 (by decide)
  exact ⟨h.1.trans rfl, h.2.trans rfl⟩

/-- C6: the aggregated outcome of `bulk_upsert` (success count and error
list) is identical for any two positive chunk sizes; chunking only groups
actions into requests. -/
theorem bulk_upsert_chunk_size_irrelevant (engine : BulkEngine) (index : String)
    (docs : List (String × PyVal)) (c1 c2 : Nat) (h1 : 0 < c1) (h2 : 0 < c2) :
    bulk_upsert engine index docs c1 = bulk_upsert engine index docs c2 := by
  simp [bulk_upsert, helpers_bulk_eq]

/-- Witness for C6: chunk sizes 1 and 3 give the same outcome on the
concrete batch with one failing document. -/
theorem bulk_upsert_chunk_size_irrelevant_witness :
    bulk_upsert engineBad "memo" docsBad 1 = bulk_upsert engineBad "memo" docsBad 3 :=
  bulk_upsert_chunk_size_irrelevant engineBad "memo" docsBad 1 3 (by decide) (by decide)

/-- The error-sampling loop of `bulk_index`, in closed form: on well-formed
items (no empty item dicts) it never hits `StopIteration` and collects the
first failing items' payloads in order, stopping once the sample reaches 3. -/
theorem sample_bulk_errors_eq (items : List BulkItem) (acc : List PyVal)
    (hwf : ∀ it ∈ items, it ≠ []) (hacc : acc.length < 3) :
    sample_bulk_errors items acc =
      Except.ok (acc ++ (items.filterMap item_error).take (3 - acc.length)) := by
  induction items generalizing acc with
  | nil => simp [sample_bulk_errors]
  | cons it rest ih =>
    have hne : it ≠ [] := hwf it (by simp)
    obtain ⟨action, acts, rfl⟩ := List.exists_cons_of_ne_nil hne
    have hwf2 : ∀ x ∈ rest, x ≠ [] := fun x hx => hwf x (by simp [hx])
    rw [sample_bulk_errors]
    simp only [List.head?_cons]
    cases hpk : pyHasKey action.2 "error" with
    | false =>
      simp only [List.filterMap_cons, item_error, List.head?_cons, hpk,
        Bool.false_eq_true, if_false]
      rw [if_neg (by omega)]
      exact ih acc hwf2 hacc
    | true =>
      simp only [List.filterMap_cons, item_error, List.head?_cons, hpk, if_true]
      by_cases h3 : 3 ≤ acc.length + 1
      · have hlen : acc.length = 2 := by omega
        rw [if_pos (by simp [hlen])]
        have hsub : 3 - acc.length = 1 := by omega
        simp [hsub]
      · rw [if_neg (by simp; omega)]
        rw [ih _ hwf2 (by simp; omega)]
        have hsub : 3 - acc.length = (3 - (acc.length + 1)) + 1 := by omega
        simp [hsub, List.take_succ_cons]

/-- C5: on a well-formed bulk response (each item a non-empty dict), if the
engine's `errors` flag is set, `bulk_index` raises a hard failure whose
message carries a sample of at most 3 item-level error payloads taken from
the first failing items in order; if the flag is clear, it returns
normally. -/
theorem bulk_index_strict (resp : BulkResponse)
    (hwf : ∀ it ∈ resp.items, it ≠ []) :
    (resp.errors = true →
      bulk_index resp = BulkIndexResult.raised
        ((resp.items.filterMap item_error).take 3)) ∧
    (resp.errors = false → bulk_index resp = BulkIndexResult.ok) := by
  constructor
  · intro herr
    rw [bulk_index, if_pos herr, sample_bulk_errors_eq resp.items [] hwf (by simp)]
    simp
  · intro herr
    rw [bulk_index, if_neg (by simp [herr])]

/-- Witness for C5: the concrete response with four failing items raises
with exactly the first three error payloads, and the concrete error-free
response returns normally. -/
theorem bulk_index_strict_witness :
    bulk_index respBulkErrors =
      BulkIndexResult.raised [PyVal.str "e1", PyVal.str "e2", PyVal.str "e3"] ∧
    bulk_index respBulkOk = BulkIndexResult.ok := by
  constructor
  · have h := (bulk_index_strict respBulkErrors (by
      intro it hit
      simp only [respBulkErrors, failedItem, okItem, List.mem_cons,
        List.not_mem_nil, or_false] at hit
      rcases hit with rfl | rfl | rfl | rfl | rfl <;> simp)).1 rfl
    exact h.trans rfl
  · exact (bulk_index_strict respBulkOk (by
      intro it hit
      simp only [respBulkOk, okItem, List.mem_cons, List.not_mem_nil,
        or_false] at hit
      subst hit
      simp)).2 rfl

end MemoSearch
